import Mathlib

/-!
# Verification of the topology-assembly core of `taller.cc`

Shallow embedding of the ns-3 scenario program `src/taller.cc`: the
subnet allocation (`Ipv4AddressHelper`), the cluster-construction loop,
representative selection through a single `std::mt19937` engine, the CSMA
backbone over the representatives, and the stop-time gate of `main`.
-/

namespace Taller

/-- An IPv4 address encoded as a natural number below `2^32`
(dotted quad `a.b.c.d`). -/
def ipv4 (a b c d : Nat) : Nat :=
  ((a * 256 + b) * 256 + c) * 256 + d

/-- Size of the IPv4 address space (32-bit addresses, `2^32`). -/
def addressSpace : Nat := 4294967296

/-- State of an ns-3 `Ipv4AddressHelper` pool as used by `taller.cc`:
`SetBase` fixes the network base address, and the mask `255.255.255.0`
makes every issued block span `256` addresses. -/
structure Ipv4AddressHelper where
  network : Nat
  blockSize : Nat
deriving Repr, DecidableEq

/-- Model of `SetBase(base, mask)`: initialise a pool at a network base address. -/
def Ipv4AddressHelper.setBase (base blockSize : Nat) : Ipv4AddressHelper :=
  ⟨base, blockSize⟩

/-- Model of `Assign` over `k` devices: hands out host addresses
`network+1, …, network+k` inside the pool's current block
(ns-3 starts at host number 1). -/
def Ipv4AddressHelper.assignAddrs (h : Ipv4AddressHelper) (k : Nat) : List Nat :=
  (List.range k).map (fun j => h.network + 1 + j)

/-- Model of `NewNetwork()`: advance the pool's cursor to the next block of the same
mask width, in 32-bit address arithmetic. -/
def Ipv4AddressHelper.newNetwork (h : Ipv4AddressHelper) : Ipv4AddressHelper :=
  ⟨(h.network + h.blockSize) % addressSpace, h.blockSize⟩

/-- Membership of address `a` in the block of `blockSize` addresses based
at `base`. -/
def inBlock (base blockSize a : Nat) : Prop :=
  base ≤ a ∧ a < base + blockSize

instance (base blockSize a : Nat) : Decidable (inBlock base blockSize a) := by
  unfold inBlock; infer_instance

/-- Two address blocks are disjoint: one ends before the other begins. -/
def blocksDisjoint (b1 s1 b2 s2 : Nat) : Prop :=
  b1 + s1 ≤ b2 ∨ b2 + s2 ≤ b1

instance (b1 s1 b2 s2 : Nat) : Decidable (blocksDisjoint b1 s1 b2 s2) := by
  unfold blocksDisjoint; infer_instance

/-- The process-wide `std::mt19937` engine, seeded once from
`std::random_device` at the top of `main`.  It is modelled by its stream of
raw outputs together with a cursor: calling the engine yields
`stream pos` and advances `pos` (never reseeds). -/
structure Mt19937 where
  stream : Nat → Nat
  pos : Nat

/-- One raw draw from the engine: value plus advanced engine. -/
def Mt19937.next (r : Mt19937) : Nat × Mt19937 :=
  (r.stream r.pos, ⟨r.stream, r.pos + 1⟩)

/-- Model of `std::uniform_int_distribution<int>(0, n-1)` applied to the engine:
one engine output reduced into the range `[0, n-1]`, with the engine
advanced (the standard guarantees a result in range and that only the
engine's state changes). -/
def uniformInt (n : Nat) (r : Mt19937) : Nat × Mt19937 :=
  (r.stream r.pos % n, ⟨r.stream, r.pos + 1⟩)

/-- Constant `clusterHeadNodes = 2` of `taller.cc`. -/
def clusterHeadNodes : Nat := 2

/-- Constant array `infraNodes[] = \x7b4, 3\x7d` of `taller.cc`: the requested cluster sizes. -/
def infraNodes : List Nat := [4, 3]

/-- Constant `stopTime = 20` of `taller.cc`. -/
def shippedStopTime : Nat := 20

/-- The minimum stop time enforced by the gate `if (stopTime < 10)`. -/
def minStopTime : Nat := 10

/-- The three cluster pools `ipAddrs[0..2]`, set to bases `192.167.0.0`,
`192.168.0.0` and `192.169.0.0` with mask `255.255.255.0`. -/
def clusterBases : List Nat :=
  [ipv4 192 167 0 0, ipv4 192 168 0 0, ipv4 192 169 0 0]

/-- The backbone pool `ipAddrsH`, set to base `172.16.0.0`. -/
def backboneBase : Nat := ipv4 172 16 0 0

/-- Block size of a `/24` subnet (mask `255.255.255.0`). -/
def slash24 : Nat := 256

/-- The diagnostic printed when the stop-time gate fails. -/
def stopDiagnostic : String := "Use a simulation stop time >= 10 seconds"

/-- The `GridPositionAllocator` origin for cluster `i`:
`MinX = (i+1)*50.0`, `MinY = (i+1)*20.0`.  All values are small integers,
exactly representable as doubles, so integer arithmetic is exact here. -/
def placementOrigin (i : Nat) : Int × Int :=
  (((i : Int) + 1) * 50, ((i : Int) + 1) * 20)

/-- Initial grid position of node `j` in cluster `i`:
`DeltaX = 5`, `DeltaY = 10`, `GridWidth = 2`, row-first layout. -/
def gridPosition (i j : Nat) : Int × Int :=
  ((placementOrigin i).1 + 5 * ((j % 2 : Nat) : Int),
   (placementOrigin i).2 + 10 * ((j / 2 : Nat) : Int))

/-- One constructed cluster, as built by iteration `i` of the loop in
`main`: its requested size, the subnet issued by `ipAddrs[i]`, its private
wireless channel (one fresh `YansWifiChannel` per iteration, identified by
the loop index), the addresses assigned to its members, the representative
index drawn from the shared engine, and its mobility grid data. -/
structure Cluster where
  size : Nat
  subnetBase : Nat
  channelId : Nat
  addrs : List Nat
  repIndex : Nat
  origin : Int × Int
  positions : List (Int × Int)
deriving Repr, DecidableEq

/-- One iteration of the cluster-construction loop of `main`, for loop
index `i` and requested size `n`: create a fresh channel and `n` nodes,
assign addresses from pool `ipAddrs[i]`, install the grid mobility whose
origin is derived from `i`, then draw the representative index with
`uniform_int_distribution(0, n-1)` from the shared engine.  With `n = 0`
the distribution bounds `(0, -1)` are invalid and the selection cannot
produce a member index, so the iteration fails (returns `none`). -/
def buildCluster (i n : Nat) (rng : Mt19937) : Option (Cluster × Mt19937) :=
  if n = 0 then none
  else
    let base := clusterBases.getD i 0
    let draw := uniformInt n rng
    some ({ size := n
            subnetBase := base
            channelId := i
            addrs := (Ipv4AddressHelper.setBase base slash24).assignAddrs n
            repIndex := draw.1
            origin := placementOrigin i
            positions := (List.range n).map (gridPosition i) },
          draw.2)

/-- The whole cluster loop: processes the size list in order, threading the
engine.  Returns the number of channels created (a channel is created at
the top of each iteration, before anything can fail), the clusters
completed, and the final engine state (`none` if an iteration failed). -/
def buildAll : List Nat → Nat → Mt19937 → Nat × List Cluster × Option Mt19937
  | [], _, rng => (0, [], some rng)
  | n :: rest, i, rng =>
    match buildCluster i n rng with
    | none => (1, [], none)
    | some (c, rng') =>
      let r := buildAll rest (i + 1) rng'
      (r.1 + 1, c :: r.2.1, r.2.2)

/-- The backbone built over the representatives: the CSMA interconnect's
subnet from pool `ipAddrsH` and the address assigned to each
representative on it, in cluster order. -/
structure Backbone where
  subnetBase : Nat
  repAddrs : List Nat
deriving Repr, DecidableEq

/-- Observable outcome of one execution of `main`. `exitCode = some e` is
a clean `exit(e)`/return; `none` records an execution that aborts inside
the assembly (e.g. invalid distribution bounds) without any clean exit. -/
structure RunResult where
  diagnostics : List String
  exitCode : Option Nat
  channelsCreated : Nat
  clusters : List Cluster
  backbone : Option Backbone
  stopAt : Option Nat
deriving Repr, DecidableEq

/-- The body of `main`, parameterised by the configuration constants it
hard-codes (`sizes`, `stopTime`) and by the seeded engine: the stop-time
gate, then the cluster loop, then the CSMA backbone over the
representatives, then `Simulator::Stop(Seconds(stopTime))` and the run. -/
def runProgram (sizes : List Nat) (stopTime : Nat) (rng : Mt19937) : RunResult :=
  if stopTime < minStopTime then
    { diagnostics := [stopDiagnostic]
      exitCode := some 1
      channelsCreated := 0
      clusters := []
      backbone := none
      stopAt := none }
  else
    let b := buildAll sizes 0 rng
    match b.2.2 with
    | none =>
      { diagnostics := []
        exitCode := none
        channelsCreated := b.1
        clusters := b.2.1
        backbone := none
        stopAt := none }
    | some _ =>
      { diagnostics := []
        exitCode := some 0
        channelsCreated := b.1
        clusters := b.2.1
        backbone := some
          { subnetBase := backboneBase
            repAddrs := (Ipv4AddressHelper.setBase backboneBase slash24).assignAddrs
              b.2.1.length }
        stopAt := some stopTime }

/-- The shipped program run: `main` with its compile-time configuration
`infraNodes = {4,3}`, `stopTime = 20`. -/
def mainRun (rng : Mt19937) : RunResult :=
  runProgram infraNodes shippedStopTime rng

/-- A network interface held by a node: the wifi device installed by the
cluster loop (with its assigned address and the cluster channel), or the
CSMA device installed on a representative by the backbone step. -/
inductive Interface where
  | wifi (addr : Nat) (channel : Nat)
  | csma (addr : Nat)
deriving Repr, DecidableEq

/-- Whether an interface is a wireless (cluster) interface. -/
def Interface.isWifi : Interface → Bool
  | .wifi _ _ => true
  | .csma _ => false

/-- Whether an interface is a CSMA (backbone) interface. -/
def Interface.isCsma : Interface → Bool
  | .wifi _ _ => false
  | .csma _ => true

/-- One simulated node: the cluster it belongs to, its index inside that
cluster, and the interfaces installed on it. -/
structure SimNode where
  clusterIdx : Nat
  indexInCluster : Nat
  interfaces : List Interface
deriving Repr, DecidableEq

/-- A node is a representative iff it carries a backbone (CSMA)
interface. -/
def SimNode.isRepresentative (nd : SimNode) : Bool :=
  nd.interfaces.any Interface.isCsma

/-- Addresses of a node's wireless interfaces. -/
def SimNode.wifiAddrs (nd : SimNode) : List Nat :=
  nd.interfaces.filterMap fun itf =>
    match itf with
    | .wifi a _ => some a
    | .csma _ => none

/-- Channels of a node's wireless interfaces. -/
def SimNode.wifiChannels (nd : SimNode) : List Nat :=
  nd.interfaces.filterMap fun itf =>
    match itf with
    | .wifi _ ch => some ch
    | .csma _ => none

/-- The member nodes of one cluster: node `j` gets the wifi device with
the `j`-th assigned address on the cluster's channel; the node picked by
`head_cluster.Add(clusters[i].Get(random_integer))` additionally gets the
backbone CSMA device (when the backbone was built). -/
def clusterNodes (c : Cluster) (bb : Option Backbone) : List SimNode :=
  (List.range c.size).map fun j =>
    { clusterIdx := c.channelId
      indexInCluster := j
      interfaces :=
        Interface.wifi (c.subnetBase + 1 + j) c.channelId ::
          (match bb with
           | some b =>
             if j = c.repIndex then [Interface.csma (b.repAddrs.getD c.channelId 0)]
             else []
           | none => []) }

/-- All nodes created by a run. -/
def nodesOfRun (r : RunResult) : List SimNode :=
  (r.clusters.map (fun c => clusterNodes c r.backbone)).flatten

/-- A concrete engine used to instantiate theorems: every raw output 0. -/
def constRng : Mt19937 := ⟨fun _ => 0, 0⟩

/-- The first cluster as constructed when every engine output is 0
(representative index `0 % 4 = 0`). -/
def clusterA : Cluster :=
  { size := 4
    subnetBase := ipv4 192 167 0 0
    channelId := 0
    addrs := [ipv4 192 167 0 1, ipv4 192 167 0 2, ipv4 192 167 0 3, ipv4 192 167 0 4]
    repIndex := 0
    origin := (50, 20)
    positions := [(50, 20), (55, 20), (50, 30), (55, 30)] }

/-! ## Helper lemmas -/

/-- Iterating `NewNetwork` `k` times from a pool that does not overflow
the 32-bit address space advances the base by exactly `k` blocks. -/
theorem newNetwork_iterate (h : Ipv4AddressHelper) (k : Nat)
    (hfit : h.network + h.blockSize * k < addressSpace) :
    Ipv4AddressHelper.newNetwork^[k] h =
      { network := h.network + h.blockSize * k, blockSize := h.blockSize } := by
  induction k with
  | zero => simp
  | succ m ih =>
    have hle : h.blockSize * m ≤ h.blockSize * (m + 1) :=
      Nat.mul_le_mul_left _ (Nat.le_succ m)
    have hm : h.network + h.blockSize * m < addressSpace := by omega
    rw [Function.iterate_succ_apply', ih hm]
    simp only [Ipv4AddressHelper.newNetwork, addressSpace] at *
    rw [Nat.mul_succ] at hfit ⊢
    congr 1
    omega

/-- Reduction of the program body on the shipped configuration, for an
arbitrary engine: the stop-time gate passes and the two clusters and the
backbone come out as below, the representative indices being the two
successive engine draws. -/
theorem runProgram_shipped (stopTime : Nat) (rng : Mt19937)
    (hge : minStopTime ≤ stopTime) :
    runProgram infraNodes stopTime rng =
      { diagnostics := []
        exitCode := some 0
        channelsCreated := 2
        clusters := [
          { size := 4
            subnetBase := ipv4 192 167 0 0
            channelId := 0
            addrs := [ipv4 192 167 0 1, ipv4 192 167 0 2, ipv4 192 167 0 3,
              ipv4 192 167 0 4]
            repIndex := rng.stream rng.pos % 4
            origin := (50, 20)
            positions := [(50, 20), (55, 20), (50, 30), (55, 30)] },
          { size := 3
            subnetBase := ipv4 192 168 0 0
            channelId := 1
            addrs := [ipv4 192 168 0 1, ipv4 192 168 0 2, ipv4 192 168 0 3]
            repIndex := rng.stream (rng.pos + 1) % 3
            origin := (100, 40)
            positions := [(100, 40), (105, 40), (100, 50)] }]
        backbone := some { subnetBase := backboneBase
                           repAddrs := [ipv4 172 16 0 1, ipv4 172 16 0 2] }
        stopAt := some stopTime } := by
  unfold runProgram
  rw [if_neg (Nat.not_lt.mpr hge)]
  rfl

/-- Specialisation of `runProgram_shipped` to the shipped stop time. -/
theorem mainRun_eq (rng : Mt19937) :
    mainRun rng =
      { diagnostics := []
        exitCode := some 0
        channelsCreated := 2
        clusters := [
          { size := 4
            subnetBase := ipv4 192 167 0 0
            channelId := 0
            addrs := [ipv4 192 167 0 1, ipv4 192 167 0 2, ipv4 192 167 0 3,
              ipv4 192 167 0 4]
            repIndex := rng.stream rng.pos % 4
            origin := (50, 20)
            positions := [(50, 20), (55, 20), (50, 30), (55, 30)] },
          { size := 3
            subnetBase := ipv4 192 168 0 0
            channelId := 1
            addrs := [ipv4 192 168 0 1, ipv4 192 168 0 2, ipv4 192 168 0 3]
            repIndex := rng.stream (rng.pos + 1) % 3
            origin := (100, 40)
            positions := [(100, 40), (105, 40), (100, 50)] }]
        backbone := some { subnetBase := backboneBase
                           repAddrs := [ipv4 172 16 0 1, ipv4 172 16 0 2] }
        stopAt := some 20 } :=
  runProgram_shipped shippedStopTime rng (by decide)


/-! ## Claims -/

/-- C1: for every run of the assembly, the subnets assigned to the
clusters are pairwise non-overlapping, the backbone subnet
`172.16.0.0/24` overlaps no cluster subnet, and within any single
allocator pool the `/24` block available after `k2` advances is disjoint
from and strictly above the block available after `k1 < k2` advances
(for pools that do not wrap the 32-bit address space, which the shipped
pools never approach). -/
theorem C1_subnets_disjoint (rng : Mt19937) (h : Ipv4AddressHelper) (k1 k2 : Nat)
    (hb : 0 < h.blockSize) (hk : k1 < k2)
    (hfit : h.network + h.blockSize * k2 < addressSpace) :
    (∀ c1 ∈ (mainRun rng).clusters, ∀ c2 ∈ (mainRun rng).clusters,
        c1.channelId ≠ c2.channelId →
          blocksDisjoint c1.subnetBase slash24 c2.subnetBase slash24) ∧
    (∀ c ∈ (mainRun rng).clusters,
        blocksDisjoint backboneBase slash24 c.subnetBase slash24) ∧
    (Ipv4AddressHelper.newNetwork^[k1] h).network
        < (Ipv4AddressHelper.newNetwork^[k2] h).network ∧
    (Ipv4AddressHelper.newNetwork^[k1] h).network + h.blockSize
        ≤ (Ipv4AddressHelper.newNetwork^[k2] h).network := by
  have hmul : h.blockSize * (k1 + 1) ≤ h.blockSize * k2 :=
    Nat.mul_le_mul_left _ hk
  rw [Nat.mul_succ] at hmul
  have h1 : h.network + h.blockSize * k1 < addressSpace := by omega
  have h4 : rng.stream rng.pos % 4 < 4 := Nat.mod_lt _ (by norm_num)
  have h3 : rng.stream (rng.pos + 1) % 3 < 3 := Nat.mod_lt _ (by norm_num)
  refine ⟨?_, ?_, ?_⟩
  · rw [mainRun_eq]
    set ra := rng.stream rng.pos % 4 with hra
    set rb := rng.stream (rng.pos + 1) % 3 with hrb
    clear_value ra rb
    interval_cases ra <;> interval_cases rb <;> decide
  · rw [mainRun_eq]
    set ra := rng.stream rng.pos % 4 with hra
    set rb := rng.stream (rng.pos + 1) % 3 with hrb
    clear_value ra rb
    interval_cases ra <;> interval_cases rb <;> decide
  · rw [newNetwork_iterate h k1 h1, newNetwork_iterate h k2 hfit]
    simp only
    omega

/-- Witness for C1 at the first cluster pool, advances `0 < 1`. -/
theorem C1_subnets_disjoint_witness :
    0 < (Ipv4AddressHelper.setBase (ipv4 192 167 0 0) slash24).blockSize ∧
    0 < 1 ∧
    (Ipv4AddressHelper.setBase (ipv4 192 167 0 0) slash24).network
        + (Ipv4AddressHelper.setBase (ipv4 192 167 0 0) slash24).blockSize * 1
        < addressSpace ∧
    (Ipv4AddressHelper.newNetwork^[0]
          (Ipv4AddressHelper.setBase (ipv4 192 167 0 0) slash24)).network
        + (Ipv4AddressHelper.setBase (ipv4 192 167 0 0) slash24).blockSize
      ≤ (Ipv4AddressHelper.newNetwork^[1]
          (Ipv4AddressHelper.setBase (ipv4 192 167 0 0) slash24)).network :=
  ⟨by decide, by decide, by decide,
    (C1_subnets_disjoint constRng
      (Ipv4AddressHelper.setBase (ipv4 192 167 0 0) slash24) 0 1
      (by decide) (by decide) (by decide)).2.2.2⟩

/-- C2: every cluster of the shipped run has size at least 1, exactly
`size` member nodes were created for it, each member node holds exactly
one IPv4 address, that address lies in the cluster's subnet and sits on a
wireless interface attached to the cluster's own channel, and no other
cluster shares that channel. -/
theorem C2_cluster_nodes (rng : Mt19937) (c : Cluster)
    (hc : c ∈ (mainRun rng).clusters) :
    1 ≤ c.size ∧
    c.addrs.length = c.size ∧
    ((nodesOfRun (mainRun rng)).filter
        (fun nd => nd.clusterIdx == c.channelId)).length = c.size ∧
    (∀ nd ∈ nodesOfRun (mainRun rng), nd.clusterIdx = c.channelId →
        nd.wifiAddrs.length = 1 ∧
        (∀ a ∈ nd.wifiAddrs, inBlock c.subnetBase slash24 a) ∧
        nd.wifiChannels = [c.channelId]) ∧
    (∀ c2 ∈ (mainRun rng).clusters, c2.channelId = c.channelId → c2 = c) := by
  rw [mainRun_eq] at hc ⊢
  have h4 : rng.stream rng.pos % 4 < 4 := Nat.mod_lt _ (by norm_num)
  have h3 : rng.stream (rng.pos + 1) % 3 < 3 := Nat.mod_lt _ (by norm_num)
  set ra := rng.stream rng.pos % 4 with hra
  set rb := rng.stream (rng.pos + 1) % 3 with hrb
  clear_value ra rb
  simp only [List.mem_cons, List.not_mem_nil, or_false] at hc
  rcases hc with rfl | rfl <;> interval_cases ra <;> interval_cases rb <;> decide

/-- Witness for C2 at the first cluster of the all-zero engine. -/
theorem C2_cluster_nodes_witness :
    clusterA ∈ (mainRun constRng).clusters ∧ 1 ≤ clusterA.size :=
  ⟨by decide, (C2_cluster_nodes constRng clusterA (by decide)).1⟩

/-- C3: representative selection reduces one draw of the single
process-wide engine into `[0, n-1]` and only advances that engine (same
stream, position incremented, no reseeding); in the shipped run the two
representative indices are the two consecutive draws of the one engine,
each cluster's index is below its size, and the representative is
exactly the cluster's node at that index. -/
theorem C3_representative_selection (rng : Mt19937) (n : Nat) (hn : 0 < n) :
    (uniformInt n rng).1 < n ∧
    (uniformInt n rng).2.stream = rng.stream ∧
    (uniformInt n rng).2.pos = rng.pos + 1 ∧
    (mainRun rng).clusters.map Cluster.repIndex
      = [rng.stream rng.pos % 4, rng.stream (rng.pos + 1) % 3] ∧
    (∀ c ∈ (mainRun rng).clusters,
        c.repIndex < c.size ∧
        ((nodesOfRun (mainRun rng)).filter
            (fun nd => nd.clusterIdx == c.channelId && nd.isRepresentative)).map
          SimNode.indexInCluster = [c.repIndex]) := by
  refine ⟨Nat.mod_lt _ hn, rfl, rfl, by rw [mainRun_eq]; rfl, ?_⟩
  rw [mainRun_eq]
  have h4 : rng.stream rng.pos % 4 < 4 := Nat.mod_lt _ (by norm_num)
  have h3 : rng.stream (rng.pos + 1) % 3 < 3 := Nat.mod_lt _ (by norm_num)
  set ra := rng.stream rng.pos % 4 with hra
  set rb := rng.stream (rng.pos + 1) % 3 with hrb
  clear_value ra rb
  intro c hc
  simp only [List.mem_cons, List.not_mem_nil, or_false] at hc
  rcases hc with rfl | rfl <;> interval_cases ra <;> interval_cases rb <;> decide

/-- Witness for C3 at `n = 4` and the all-zero engine. -/
theorem C3_representative_selection_witness :
    0 < 4 ∧ (uniformInt 4 constRng).1 < 4 :=
  ⟨by decide, (C3_representative_selection constRng 4 (by decide)).1⟩

/-- C4: after backbone assembly, each cluster of the shipped run has
exactly one representative; every node keeps exactly one wireless
address, which lies in its own cluster's subnet; a representative has
exactly two interfaces (cluster wifi plus backbone CSMA) and a
non-representative exactly one. -/
theorem C4_interface_counts (rng : Mt19937) :
    (∀ c ∈ (mainRun rng).clusters,
        ((nodesOfRun (mainRun rng)).filter
            (fun nd => nd.clusterIdx == c.channelId && nd.isRepresentative)).length
          = 1) ∧
    (∀ nd ∈ nodesOfRun (mainRun rng),
        nd.wifiAddrs.length = 1 ∧
        (∀ a ∈ nd.wifiAddrs,
            inBlock (clusterBases.getD nd.clusterIdx 0) slash24 a) ∧
        (nd.isRepresentative = true → nd.interfaces.length = 2) ∧
        (nd.isRepresentative = false → nd.interfaces.length = 1)) := by
  have h4 : rng.stream rng.pos % 4 < 4 := Nat.mod_lt _ (by norm_num)
  have h3 : rng.stream (rng.pos + 1) % 3 < 3 := Nat.mod_lt _ (by norm_num)
  rw [mainRun_eq]
  set ra := rng.stream rng.pos % 4 with hra
  set rb := rng.stream (rng.pos + 1) % 3 with hrb
  clear_value ra rb
  interval_cases ra <;> interval_cases rb <;> decide

/-- Witness for C4 at the first cluster of the all-zero engine. -/
theorem C4_interface_counts_witness :
    clusterA ∈ (mainRun constRng).clusters ∧
    ((nodesOfRun (mainRun constRng)).filter
        (fun nd => nd.clusterIdx == clusterA.channelId && nd.isRepresentative)).length
      = 1 :=
  ⟨by decide, (C4_interface_counts constRng).1 clusterA (by decide)⟩

/-- C5: with `stopTime < 10` the program prints the minimum-stop-time
diagnostic and exits with status 1 before creating any channel, node,
cluster or interconnect; with `stopTime ≥ 10` the full assembly runs and
the process ends cleanly with exit code 0, the engine stopped at
`stopTime`. -/
theorem C5_stopTime_gate (stopTime : Nat) (rng : Mt19937) :
    (stopTime < minStopTime →
        runProgram infraNodes stopTime rng =
          { diagnostics := [stopDiagnostic]
            exitCode := some 1
            channelsCreated := 0
            clusters := []
            backbone := none
            stopAt := none }) ∧
    (minStopTime ≤ stopTime →
        (runProgram infraNodes stopTime rng).exitCode = some 0 ∧
        (runProgram infraNodes stopTime rng).diagnostics = [] ∧
        (runProgram infraNodes stopTime rng).clusters.length = 2 ∧
        (runProgram infraNodes stopTime rng).channelsCreated = 2 ∧
        (runProgram infraNodes stopTime rng).backbone.map Backbone.subnetBase
          = some backboneBase ∧
        (runProgram infraNodes stopTime rng).stopAt = some stopTime) := by
  constructor
  · intro hlt
    unfold runProgram
    rw [if_pos hlt]
  · intro hge
    rw [runProgram_shipped stopTime rng hge]
    exact ⟨rfl, rfl, rfl, rfl, rfl, rfl⟩

/-- Witness for C5 at stop times 5 and 20. -/
theorem C5_stopTime_gate_witness :
    (5 < minStopTime ∧
      runProgram infraNodes 5 constRng =
        { diagnostics := [stopDiagnostic]
          exitCode := some 1
          channelsCreated := 0
          clusters := []
          backbone := none
          stopAt := none }) ∧
    (minStopTime ≤ 20 ∧ (runProgram infraNodes 20 constRng).exitCode = some 0) :=
  ⟨⟨by decide, (C5_stopTime_gate 5 constRng).1 (by decide)⟩,
    ⟨by decide, ((C5_stopTime_gate 20 constRng).2 (by decide)).1⟩⟩

/-- C6 counterexample: with a requested cluster size of 0, the program
does not detect the bad size before creating simulation resources and
reports nothing: the first loop iteration creates its wireless channel,
no diagnostic is printed, and the run aborts inside assembly instead of
exiting cleanly with a non-zero status. -/
theorem C6_counterexample :
    (runProgram [0] shippedStopTime constRng).channelsCreated = 1 ∧
    (runProgram [0] shippedStopTime constRng).diagnostics = [] ∧
    (runProgram [0] shippedStopTime constRng).exitCode = none := by
  decide

/-- C6 amended: the program performs no cluster-size validation at all;
every cluster size in the shipped configuration is a compile-time
constant at least 1 (namely 4 and 3), so a size ≤ 0 never arises, and a
hypothetical size-0 cluster would have its wireless channel created and
the run would abort at representative selection with no diagnostic and
no clean exit status. -/
theorem C6_no_size_validation (rng : Mt19937) (n : Nat) (hn : n ∈ infraNodes) :
    1 ≤ n ∧
    (runProgram [0] shippedStopTime rng).channelsCreated = 1 ∧
    (runProgram [0] shippedStopTime rng).diagnostics = [] ∧
    (runProgram [0] shippedStopTime rng).exitCode = none := by
  refine ⟨?_, rfl, rfl, rfl⟩
  simp only [infraNodes, List.mem_cons, List.not_mem_nil, or_false] at hn
  rcases hn with rfl | rfl <;> decide

/-- Witness for C6 (amended) at the shipped size 4. -/
theorem C6_no_size_validation_witness :
    4 ∈ infraNodes ∧ 1 ≤ 4 :=
  ⟨by decide, (C6_no_size_validation constRng 4 (by decide)).1⟩

/-- C7: the reference run (sizes 4 and 3, bases `192.167.0.0/24` and
`192.168.0.0/24`, backbone `172.16.0.0/24`, stop time 20) produces
exactly 7 nodes, exactly 2 representatives — one per cluster — one
backbone whose address block spans exactly those 2 representatives, and
stops the engine at simulated time 20. -/
theorem C7_reference_run (rng : Mt19937) :
    (nodesOfRun (mainRun rng)).length = 7 ∧
    ((nodesOfRun (mainRun rng)).filter SimNode.isRepresentative).length = 2 ∧
    ((nodesOfRun (mainRun rng)).filter SimNode.isRepresentative).map
        SimNode.clusterIdx = [0, 1] ∧
    (mainRun rng).clusters.map Cluster.subnetBase
      = [ipv4 192 167 0 0, ipv4 192 168 0 0] ∧
    (mainRun rng).backbone.map Backbone.subnetBase = some (ipv4 172 16 0 0) ∧
    (mainRun rng).backbone.map (fun b => b.repAddrs.length) = some 2 ∧
    (mainRun rng).stopAt = some shippedStopTime := by
  have h4 : rng.stream rng.pos % 4 < 4 := Nat.mod_lt _ (by norm_num)
  have h3 : rng.stream (rng.pos + 1) % 3 < 3 := Nat.mod_lt _ (by norm_num)
  rw [mainRun_eq]
  set ra := rng.stream rng.pos % 4 with hra
  set rb := rng.stream (rng.pos + 1) % 3 with hrb
  clear_value ra rb
  interval_cases ra <;> interval_cases rb <;> decide

/-- C8: two runs with the same size list, the same stop time and engines
of identical stream and position produce structurally identical results:
the same subnet and representative index per cluster and the same
backbone. -/
theorem C8_deterministic (s1 s2 : List Nat) (t1 t2 : Nat) (r1 r2 : Mt19937)
    (hs : s1 = s2) (ht : t1 = t2) (hstream : r1.stream = r2.stream)
    (hpos : r1.pos = r2.pos) :
    (runProgram s1 t1 r1).clusters.map (fun c => (c.subnetBase, c.repIndex))
      = (runProgram s2 t2 r2).clusters.map (fun c => (c.subnetBase, c.repIndex)) ∧
    (runProgram s1 t1 r1).backbone = (runProgram s2 t2 r2).backbone := by
  obtain ⟨f1, p1⟩ := r1
  obtain ⟨f2, p2⟩ := r2
  simp only at hstream hpos
  subst hs
  subst ht
  subst hstream
  subst hpos
  exact ⟨rfl, rfl⟩

/-- Witness for C8 on the shipped configuration and the all-zero engine. -/
theorem C8_deterministic_witness :
    infraNodes = infraNodes ∧
    (runProgram infraNodes shippedStopTime constRng).clusters.map
        (fun c => (c.subnetBase, c.repIndex))
      = (runProgram infraNodes shippedStopTime constRng).clusters.map
        (fun c => (c.subnetBase, c.repIndex)) :=
  ⟨rfl,
    (C8_deterministic infraNodes infraNodes shippedStopTime shippedStopTime
      constRng constRng rfl rfl rfl rfl).1⟩

/-- C9: each cluster's mobility placement origin is the deterministic
function of its sequence index given by the grid configuration, its
members' initial positions follow the grid formula from that origin, and
in the shipped run clusters with different indices occupy disjoint sets
of initial positions in the plane. -/
theorem C9_mobility_placement (rng : Mt19937) :
    (∀ c ∈ (mainRun rng).clusters,
        c.origin = placementOrigin c.channelId ∧
        c.positions = (List.range c.size).map (gridPosition c.channelId)) ∧
    (∀ c1 ∈ (mainRun rng).clusters, ∀ c2 ∈ (mainRun rng).clusters,
        c1.channelId ≠ c2.channelId → ∀ p ∈ c1.positions, p ∉ c2.positions) := by
  have h4 : rng.stream rng.pos % 4 < 4 := Nat.mod_lt _ (by norm_num)
  have h3 : rng.stream (rng.pos + 1) % 3 < 3 := Nat.mod_lt _ (by norm_num)
  rw [mainRun_eq]
  set ra := rng.stream rng.pos % 4 with hra
  set rb := rng.stream (rng.pos + 1) % 3 with hrb
  clear_value ra rb
  interval_cases ra <;> interval_cases rb <;> decide

/-- Witness for C9 at the first cluster of the all-zero engine. -/
theorem C9_mobility_placement_witness :
    clusterA ∈ (mainRun constRng).clusters ∧
    clusterA.origin = placementOrigin clusterA.channelId :=
  ⟨by decide, ((C9_mobility_placement constRng).1 clusterA (by decide)).1⟩

/-- C10: the stop time is the compile-time constant 20, which meets the
minimum of 10, so the stop-time failure branch is never taken in any
execution of the shipped program: no diagnostic is printed and the run
always proceeds through assembly to a clean exit 0. -/
theorem C10_gate_unreachable (rng : Mt19937) :
    shippedStopTime = 20 ∧
    minStopTime ≤ shippedStopTime ∧
    (mainRun rng).diagnostics = [] ∧
    (mainRun rng).exitCode = some 0 ∧
    (mainRun rng).clusters.length = 2 :=
  ⟨rfl, by decide, rfl, rfl, rfl⟩

end Taller
